import Mathlib

/-!
# Shallow embedding of the e-commerce backend

This file embeds the route handlers of the FastAPI e-commerce backend
(`app/auth/routes.py`, `app/cart/routes.py`, `app/products/public_routes.py`,
`app/orders/routes.py`) as pure Lean functions over an explicit database
state, and proves the specification's claims about them.

Conventions:
* the relational database is a `DB` record of lists of rows plus fresh-id
  counters; SQLAlchemy `query(...).filter(...).first()` becomes `List.find?`,
  `.all()` becomes `List.filter`, a mutation of a loaded ORM row becomes a
  `List.map` replacing the row by primary key;
* a route handler returns `Except HttpError α × DB`: the returned `DB` is the
  state observable after the request (a rollback returns the input state);
* Python `int` is `Int`; monetary `price`/`total` values are `Int`
  (the claims under study only involve exact sums and products, never
  float-specific rounding);
* pydantic request validation runs before the handler body and surfaces a
  422 validation error, mirrored by explicit guards at the head of each
  endpoint function;
* a Python `raise HTTPException` that is lexically inside a `try` whose
  handler is a blanket `except Exception` is modelled as being replaced by
  that handler's 500 response, exactly as CPython dispatches it.
-/

namespace ECom

/-- Uniform error envelope: HTTP status code plus client-visible message. -/
structure HttpError where
  status : Nat
  message : String
deriving Repr, DecidableEq

/-- Role enum `UserRole` from `app/auth/models.py`. -/
inductive UserRole where
  | ADMIN
  | USER
deriving Repr, DecidableEq

/-- Row type `User` from `app/auth/models.py`. -/
structure User where
  id : Nat
  name : String
  email : String
  hashed_password : String
  role : UserRole
deriving Repr, DecidableEq

/-- Row type `ResetPassToken` from `app/auth/models.py`; `expiry_period` is a UTC
timestamp on an abstract integer clock. -/
structure ResetPassToken where
  id : Nat
  user_id : Nat
  reset_token : String
  expiry_period : Int
  is_used : Bool
deriving Repr, DecidableEq

/-- Row type `Product` from `app/products/models.py`. -/
structure Product where
  id : Nat
  name : String
  description : String
  price : Int
  stock : Int
  category : String
deriving Repr, DecidableEq

/-- Row type `ShoppingCart` from `app/cart/models.py`. -/
structure ShoppingCart where
  id : Nat
  user_id : Nat
deriving Repr, DecidableEq

/-- Row type `ShoppingCartItem` from `app/cart/models.py`; `price` is the snapshot
taken when the item was added. -/
structure ShoppingCartItem where
  id : Nat
  cart_id : Nat
  product_id : Nat
  quantity : Int
  price : Int
deriving Repr, DecidableEq

/-- Status enum `OrderStatus` from `app/orders/models.py`. -/
inductive OrderStatus where
  | PENDING
  | CONFIRMED
  | SHIPPED
  | DELIVERED
  | CANCELLED
deriving Repr, DecidableEq

/-- Row type `Order` from `app/orders/models.py` (`created_at` is not modelled: no
claim mentions it). -/
structure Order where
  id : Nat
  user_id : Nat
  total : Int
  status : OrderStatus
deriving Repr, DecidableEq

/-- Row type `OrderItem` from `app/orders/models.py`. -/
structure OrderItem where
  id : Nat
  order_id : Nat
  product_id : Nat
  quantity : Int
  price : Int
deriving Repr, DecidableEq

/-- The whole relational store, with fresh primary-key counters. -/
structure DB where
  users : List User
  reset_tokens : List ResetPassToken
  products : List Product
  carts : List ShoppingCart
  cart_items : List ShoppingCartItem
  orders : List Order
  order_items : List OrderItem
  next_user_id : Nat
  next_cart_id : Nat
  next_cart_item_id : Nat
  next_order_id : Nat
  next_order_item_id : Nat
deriving Repr, DecidableEq

/-- The empty database. -/
def DB.empty : DB :=
  ⟨[], [], [], [], [], [], [], 1, 1, 1, 1, 1⟩

/-! ## Credential service (`app/auth/utils.py`, external collaborator)

Password hashing delegates to bcrypt, an external library the spec
excludes from the core; it is modelled as an abstract injective tagging
function, which is all any claim uses. -/

/-- Function `hash_password` from `app/auth/utils.py` (abstracted external hash). -/
def hash_password (password : String) : String :=
  "bcrypt$" ++ password

/-! ## Auth routes (`app/auth/routes.py`) -/

/-- Request body `UserCreate` (`app/auth/schemas.py`); `role` defaults to
`"user"`. -/
structure UserCreate where
  name : String
  email : String
  password : String
  role : String := "user"
deriving Repr, DecidableEq

/-- Validator `UserCreate.validate_name`: length between 2 and 100. -/
def validate_name (v : String) : Except String String :=
  if v.length < 2 || v.length > 100 then
    .error "Name must be between 2 and 100 characters"
  else .ok v

/-- Validator `UserCreate.validate_password`: at least 8 chars, one uppercase, one
digit. -/
def validate_password (v : String) : Except String String :=
  if v.length < 8 then
    .error "Password must be at least 8 characters long"
  else if !(v.toList.any Char.isUpper) then
    .error "Password must contain at least one uppercase letter"
  else if !(v.toList.any Char.isDigit) then
    .error "Password must contain at least one digit"
  else .ok v

/-- Model of Python `str.lower` on the character list (the repository only
compares against the ASCII strings `"user"` and `"admin"`). -/
def lowerString (s : String) : String :=
  String.mk (s.data.map Char.toLower)

/-- Validator `UserCreate.validate_role`: lowercases the value and requires it to be
`"user"` or `"admin"`. -/
def validate_role (v : String) : Except String String :=
  if lowerString v == "user" || lowerString v == "admin" then .ok (lowerString v)
  else .error "Role must be either user or admin"

/-- Pydantic validation of a `UserCreate` body, field validators in
declaration order; the stored `role` is the lowercased value. -/
def validateUserCreate (u : UserCreate) : Except String UserCreate := do
  let name ← validate_name u.name
  let password ← validate_password u.password
  let role ← validate_role u.role
  .ok { u with name := name, password := password, role := role }

/-- Response body of `/auth/signup` (`UserResponse`). -/
structure UserResponse where
  id : Nat
  name : String
  email : String
  role : UserRole
deriving Repr, DecidableEq

/-- Endpoint `POST /auth/signup` (`signup` in `app/auth/routes.py`): validate the
body, reject an already-registered email with 400, otherwise insert a user
whose role is `ADMIN` exactly when the validated (lowercased) role string
is `"admin"`. The endpoint has no authentication dependency: its only
inputs are the database and the request body. -/
def signup (db : DB) (raw : UserCreate) : Except HttpError UserResponse × DB :=
  match validateUserCreate raw with
  | .error m => (.error ⟨422, m⟩, db)
  | .ok u =>
    if (db.users.find? (fun x => x.email == u.email)).isSome then
      (.error ⟨400, "Email already registered"⟩, db)
    else
      let db_user : User :=
        { id := db.next_user_id
          name := u.name
          email := u.email
          hashed_password := hash_password u.password
          role := if u.role == "admin" then UserRole.ADMIN else UserRole.USER }
      (.ok ⟨db_user.id, db_user.name, db_user.email, db_user.role⟩,
       { db with users := db.users ++ [db_user], next_user_id := db.next_user_id + 1 })

/-- Request body `ResetPassword`. -/
structure ResetPassword where
  reset_token : String
  new_password : String
deriving Repr, DecidableEq

/-- Error raised when no `ResetPassToken` row matches the submitted token
string (the spec's `NotFound` outcome of `redeemResetToken`). -/
def resetTokenMissingError : HttpError :=
  ⟨400, "Invalid or expired token"⟩

/-- Error raised when the matched token's `is_used` flag is set (the spec's
`AlreadyUsed` outcome). -/
def resetTokenUsedError : HttpError :=
  ⟨400, "Token has already been used"⟩

/-- Error raised when the matched, unused token is past its expiry (the
spec's `Expired` outcome). -/
def resetTokenExpiredError : HttpError :=
  ⟨400, "Token has expired"⟩

/-- Endpoint `POST /auth/reset-password` (`reset_password` in `app/auth/routes.py`).
The three validity checks run in source order — existence, then the
`is_used` flag, then expiry — before the `try` block, so each surfaces its
own error. Inside the `try`, a missing user raises a 404 that the blanket
`except Exception` immediately converts to a 500, which is what the model
returns there. On success the user's password hash is replaced and the
token's `is_used` flag is set, atomically. `now` is the value of
`datetime.utcnow()` during the request. -/
def reset_password (db : DB) (now : Int) (request : ResetPassword) :
    Except HttpError Unit × DB :=
  match db.reset_tokens.find? (fun t => t.reset_token == request.reset_token) with
  | none => (.error resetTokenMissingError, db)
  | some reset_token =>
    if reset_token.is_used then (.error resetTokenUsedError, db)
    else if reset_token.expiry_period < now then (.error resetTokenExpiredError, db)
    else
      match db.users.find? (fun u => u.id == reset_token.user_id) with
      | none => (.error ⟨500, "Internal server error"⟩, db)
      | some user =>
        (.ok (),
         { db with
            users := db.users.map (fun u =>
              if u.id == user.id then
                { u with hashed_password := hash_password request.new_password }
              else u)
            reset_tokens := db.reset_tokens.map (fun t =>
              if t.id == reset_token.id then { t with is_used := true } else t) })

/-! ## Cart routes (`app/cart/routes.py`) -/

/-- Request body `CreateCartItem` (`app/cart/schemas.py`). -/
structure CreateCartItem where
  product_id : Nat
  quantity : Int
deriving Repr, DecidableEq

/-- Request body `UpdateItemInCart`. -/
structure UpdateItemInCart where
  quantity : Int
deriving Repr, DecidableEq

/-- Response body `CartItemResponse`. -/
structure CartItemResponse where
  id : Nat
  product_id : Nat
  quantity : Int
  price : Int
  total : Int
deriving Repr, DecidableEq

/-- Lookup of a product by primary key (`query(Product).filter(Product.id == ...).first()`). -/
def findProductIn (ps : List Product) (pid : Nat) : Option Product :=
  ps.find? (fun p => p.id == pid)

/-- Endpoint `POST /cart/` (`add_item` in `app/cart/routes.py`): validate quantity
(pydantic, >0), 404 if the product is absent, 400 if the requested
quantity exceeds current stock, lazily create the user's cart, then either
increment the existing line item for the product (refreshing its price
snapshot to the product's current price) or insert a new line item. -/
def add_item (db : DB) (uid : Nat) (item_data : CreateCartItem) :
    Except HttpError CartItemResponse × DB :=
  if item_data.quantity ≤ 0 then
    (.error ⟨422, "Qty should be more than zero"⟩, db)
  else
    match findProductIn db.products item_data.product_id with
    | none => (.error ⟨404, "Product not found"⟩, db)
    | some product =>
      if product.stock < item_data.quantity then
        (.error ⟨400, "Insufficient Stock"⟩, db)
      else
        let found := db.carts.find? (fun c => c.user_id == uid)
        let cart : ShoppingCart := match found with
          | some c => c
          | none => ⟨db.next_cart_id, uid⟩
        let db1 : DB := match found with
          | some _ => db
          | none =>
            { db with carts := db.carts ++ [cart], next_cart_id := db.next_cart_id + 1 }
        match db1.cart_items.find?
            (fun ci => ci.cart_id == cart.id && ci.product_id == item_data.product_id) with
        | some cart_item =>
          let updated : ShoppingCartItem :=
            { cart_item with
                quantity := cart_item.quantity + item_data.quantity
                price := product.price }
          let items' := db1.cart_items.map
            (fun x => if x.id == cart_item.id then updated else x)
          (.ok ⟨updated.id, updated.product_id, updated.quantity, updated.price,
                updated.quantity * updated.price⟩,
           { db1 with cart_items := items' })
        | none =>
          let cart_item : ShoppingCartItem :=
            ⟨db1.next_cart_item_id, cart.id, item_data.product_id,
             item_data.quantity, product.price⟩
          (.ok ⟨cart_item.id, cart_item.product_id, cart_item.quantity, cart_item.price,
                cart_item.quantity * cart_item.price⟩,
           { db1 with
              cart_items := db1.cart_items ++ [cart_item]
              next_cart_item_id := db1.next_cart_item_id + 1 })

/-- Endpoint `PUT /cart/:item_id` (`update_items_in_cart` in `app/cart/routes.py`):
validate quantity (pydantic, >0), find the cart item joined against the
caller's cart ownership (404 if absent or not owned), re-read the product
(a dangling product reference makes `product.stock` raise outside any
`try`, surfacing the framework's generic 500), 400 if stock is
insufficient, then set — not increment — the item's quantity. -/
def update_items_in_cart (db : DB) (uid : Nat) (item_id : Nat)
    (item_data : UpdateItemInCart) : Except HttpError CartItemResponse × DB :=
  if item_data.quantity ≤ 0 then
    (.error ⟨422, "Qty should be more than zero"⟩, db)
  else
    match db.cart_items.find? (fun ci =>
        ci.id == item_id && db.carts.any (fun c => c.id == ci.cart_id && c.user_id == uid)) with
    | none => (.error ⟨404, "Cart item not found"⟩, db)
    | some cart_item =>
      match findProductIn db.products cart_item.product_id with
      | none => (.error ⟨500, "Internal Server Error"⟩, db)
      | some product =>
        if product.stock < item_data.quantity then
          (.error ⟨400, "Insufficient stock"⟩, db)
        else
          let updated : ShoppingCartItem := { cart_item with quantity := item_data.quantity }
          let items' := db.cart_items.map
            (fun x => if x.id == cart_item.id then updated else x)
          (.ok ⟨updated.id, updated.product_id, updated.quantity, updated.price,
                updated.quantity * updated.price⟩,
           { db with cart_items := items' })

/-! ## Public product routes (`app/products/public_routes.py`) -/

/-- Response body `ProductListResponse`. -/
structure ProductListResponse where
  items : List Product
  total : Nat
  page : Nat
  page_size : Nat
deriving Repr, DecidableEq

/-- The AND-combined optional filters of `list_products` (category
equality, price bounds). -/
def matchesFilters (category : Option String) (min_price max_price : Option Int)
    (p : Product) : Bool :=
  (match category with | none => true | some c => p.category == c) &&
  (match min_price with | none => true | some m => m ≤ p.price) &&
  (match max_price with | none => true | some m => p.price ≤ m)

/-- Insertion of one element into a list sorted by `le` (model of the
datastore's ORDER BY). -/
def insertLe (le : Product → Product → Bool) (x : Product) :
    List Product → List Product
  | [] => [x]
  | y :: ys => if le x y then x :: y :: ys else y :: insertLe le x ys

/-- Sorting by `le` (model of the datastore's ORDER BY). -/
def sortLe (le : Product → Product → Bool) : List Product → List Product
  | [] => []
  | x :: xs => insertLe le x (sortLe le xs)

/-- Sort handling of `list_products`: `sort_by` matches
`^(price|name)(:(asc|desc))?$`; a missing direction defaults to `asc`. -/
def applySort (sort_by : Option String) (ps : List Product) : List Product :=
  match sort_by with
  | none => ps
  | some s =>
    let parts := s.splitOn ":"
    let field := parts.headD ""
    let direction := (parts.drop 1).headD "asc"
    if field == "price" then
      if direction == "asc" then sortLe (fun a b => a.price ≤ b.price) ps
      else sortLe (fun a b => b.price ≤ a.price) ps
    else if field == "name" then
      if direction == "asc" then sortLe (fun a b => a.name ≤ b.name) ps
      else sortLe (fun a b => b.name ≤ a.name) ps
    else ps

/-- The body of `GET /products/` (`list_products`) up to and including the
`raise HTTPException(404)` for an empty page while `total > 0`: filter,
sort, count the unpaginated set, then slice `[(page-1)*page_size, +page_size)`. -/
def list_products_inner (db : DB) (category : Option String)
    (min_price max_price : Option Int) (sort_by : Option String)
    (page page_size : Nat) : Except HttpError ProductListResponse :=
  let query := db.products.filter (matchesFilters category min_price max_price)
  let sorted := applySort sort_by query
  let total := query.length
  let skip := (page - 1) * page_size
  let products := (sorted.drop skip).take page_size
  if products.isEmpty && total > 0 then
    .error ⟨404, "No products found for the specified page"⟩
  else
    .ok ⟨products, total, page, page_size⟩

/-- Endpoint `GET /products/` (`list_products` in `app/products/public_routes.py`).
The whole body, including the 404 raise for a page beyond the available
results, sits inside a `try` whose only handler is a blanket
`except Exception` returning 500 — and `HTTPException` is an `Exception` —
so every error the body raises reaches the client as this 500. -/
def list_products (db : DB) (category : Option String)
    (min_price max_price : Option Int) (sort_by : Option String)
    (page page_size : Nat) : Except HttpError ProductListResponse :=
  match list_products_inner db category min_price max_price sort_by page page_size with
  | .ok r => .ok r
  | .error _ => .error ⟨500, "Internal server error"⟩

/-! ## Order routes (`app/orders/routes.py`) -/

/-- One entry of the `items` array of an `OrderInfo` response. -/
structure OrderItemInfo where
  id : Nat
  product_id : Nat
  product_name : String
  quantity : Int
  price : Int
  total : Int
deriving Repr, DecidableEq

/-- Response body `OrderInfo` (`created_at` not modelled). -/
structure OrderInfo where
  id : Nat
  total : Int
  status : OrderStatus
  items : List OrderItemInfo
deriving Repr, DecidableEq

/-- Error raised by `checkout` when the cart is missing or empty. -/
def emptyCartError : HttpError :=
  ⟨422, "Empty Cart"⟩

/-- The line items of one cart (the `cart_items` relationship). -/
def cartItemsOf (db : DB) (cartId : Nat) : List ShoppingCartItem :=
  db.cart_items.filter (fun ci => ci.cart_id == cartId)

/-- The first validation loop of `checkout`: walk the cart items in order
and fail on the first whose product's current stock is below its quantity,
with that product's name in the message. A dangling `item.product`
reference would raise `AttributeError`, which the handler's
`except Exception` turns into the checkout 500. No stock is modified
here. -/
def stockCheck (ps : List Product) : List ShoppingCartItem → Except HttpError Unit
  | [] => .ok ()
  | item :: rest =>
    match findProductIn ps item.product_id with
    | none => .error ⟨500, "Error in checking out"⟩
    | some product =>
      if product.stock < item.quantity then
        .error ⟨422, "Insufficient stock for " ++ product.name⟩
      else stockCheck ps rest

/-- One step of the second `checkout` loop on the product table:
`item.product.stock -= item.quantity`. -/
def decProducts (ps : List Product) (item : ShoppingCartItem) : List Product :=
  ps.map (fun p =>
    if p.id == item.product_id then { p with stock := p.stock - item.quantity } else p)

/-- The stock decrements of the second `checkout` loop, in cart-item
order. -/
def applyDecrements (ps : List Product) : List ShoppingCartItem → List Product
  | [] => ps
  | item :: rest => applyDecrements (decProducts ps item) rest

/-- The `OrderItem` rows created by the second `checkout` loop: one per
cart item, copying `product_id`, `quantity` and the snapshotted `price`,
with consecutive fresh ids. -/
def mkOrderItems (oid : Nat) (firstId : Nat) :
    List ShoppingCartItem → List OrderItem
  | [] => []
  | item :: rest =>
    ⟨firstId, oid, item.product_id, item.quantity, item.price⟩ ::
      mkOrderItems oid (firstId + 1) rest

/-- Building the `items` array of an `OrderInfo` response by joining each
order item against its product's name; `none` models the `AttributeError`
a dangling product reference would raise. -/
def buildItemsInfo (ps : List Product) : List OrderItem → Option (List OrderItemInfo)
  | [] => some []
  | oi :: rest =>
    match findProductIn ps oi.product_id, buildItemsInfo ps rest with
    | some p, some out =>
      some (⟨oi.id, oi.product_id, p.name, oi.quantity, oi.price,
             oi.quantity * oi.price⟩ :: out)
    | _, _ => none

/-- Endpoint `POST /orders/checkout` (`checkout` in `app/orders/routes.py`).
Load the caller's cart with items; 422 `Empty Cart` when missing or empty
(raised before the `try`). Inside the `try`: validate stock for every
item (first loop), compute `total` from the snapshotted cart prices,
create the `Order`, then (second loop) create one `OrderItem` per cart
item and decrement each product's stock, delete this cart's items, and
commit. `except HTTPException` re-raises business failures after rollback
and `except Exception` turns anything else into a 500 after rollback, so
every failure before the commit leaves the database unchanged. A failure
while building the response payload would occur after the commit, so
there — and only there — the mutated state is kept alongside the 500. -/
def checkout (db : DB) (uid : Nat) : Except HttpError OrderInfo × DB :=
  match db.carts.find? (fun c => c.user_id == uid) with
  | none => (.error emptyCartError, db)
  | some shopping_cart =>
    let items := cartItemsOf db shopping_cart.id
    if items.isEmpty then (.error emptyCartError, db)
    else
      match stockCheck db.products items with
      | .error e => (.error e, db)
      | .ok _ =>
        let total_sum := (items.map (fun item => item.quantity * item.price)).sum
        let oid := db.next_order_id
        let order : Order := ⟨oid, uid, total_sum, OrderStatus.PENDING⟩
        let newOrderItems := mkOrderItems oid db.next_order_item_id items
        let newProducts := applyDecrements db.products items
        let remainingCartItems :=
          db.cart_items.filter (fun ci => !(ci.cart_id == shopping_cart.id))
        let db' : DB :=
          { db with
              products := newProducts
              cart_items := remainingCartItems
              orders := db.orders ++ [order]
              order_items := db.order_items ++ newOrderItems
              next_order_id := oid + 1
              next_order_item_id := db.next_order_item_id + items.length }
        match buildItemsInfo newProducts newOrderItems with
        | none => (.error ⟨500, "Error in checking out"⟩, db')
        | some items_info =>
          (.ok ⟨order.id, order.total, order.status, items_info⟩, db')

/-- Endpoint `GET /orders/:order_id` (`get_order_info` in `app/orders/routes.py`):
the lookup filters on both `Order.id == order_id` and
`Order.user_id == user.id`, and the 404 for a missing row is raised before
the `try`; the response join inside the `try` can only fail through a
dangling product reference, masked to a 500 by the blanket handler. This
endpoint reads only, so it returns no state. -/
def get_order_info (db : DB) (uid : Nat) (order_id : Nat) :
    Except HttpError OrderInfo :=
  match db.orders.find? (fun o => o.id == order_id && o.user_id == uid) with
  | none => .error ⟨404, "Order not found"⟩
  | some order =>
    let oitems := db.order_items.filter (fun oi => oi.order_id == order.id)
    match buildItemsInfo db.products oitems with
    | none => .error ⟨500, "Failed to Fetch Order"⟩
    | some items_info => .ok ⟨order.id, order.total, order.status, items_info⟩

/-! ## Sample data for concrete instances -/

/-- Sample product with ample stock. -/
def widget : Product :=
  ⟨1, "Widget", "A widget", 10, 5, "toys"⟩

/-- Sample product with stock 1. -/
def gizmo : Product :=
  ⟨2, "Gizmo", "A gizmo", 7, 1, "toys"⟩

/-- Sample database: user 7 owns cart 1 holding two line items whose price
snapshots (9 and 7) differ from the live product prices. -/
def sampleDB : DB :=
  { DB.empty with
      users := [⟨7, "Ada", "ada@x.com", "bcrypt$pw", UserRole.USER⟩]
      products := [widget, gizmo]
      carts := [⟨1, 7⟩]
      cart_items := [⟨1, 1, 1, 2, 9⟩, ⟨2, 1, 2, 1, 7⟩]
      next_user_id := 8
      next_cart_id := 2
      next_cart_item_id := 3 }

/-- Variant of `sampleDB` whose second line item asks for 3 units of the
product with stock 1. -/
def sampleDBShort : DB :=
  { sampleDB with cart_items := [⟨1, 1, 1, 2, 9⟩, ⟨2, 1, 2, 3, 7⟩] }

/-- Variant of `sampleDB` holding one order that belongs to user 9. -/
def sampleOrderDB : DB :=
  { sampleDB with orders := [⟨1, 9, 25, OrderStatus.PENDING⟩], next_order_id := 2 }

/-- Variant of `sampleDB` holding one unused, unexpired (at time 50) reset
token for user 7. -/
def sampleTokenDB : DB :=
  { sampleDB with reset_tokens := [⟨1, 7, "tok", 100, false⟩] }

/-- The state produced when user 7 checks out `sampleDB`: stocks
decremented by the ordered quantities, cart emptied, order and order items
appended. -/
def sampleDBAfter : DB :=
  { sampleDB with
      products := [{ widget with stock := 3 }, { gizmo with stock := 0 }]
      cart_items := []
      orders := [⟨1, 7, 25, OrderStatus.PENDING⟩]
      order_items := [⟨1, 1, 1, 2, 9⟩, ⟨2, 1, 2, 1, 7⟩]
      next_order_id := 2
      next_order_item_id := 3 }

/-- The response payload of that checkout. -/
def sampleOrderInfo : OrderInfo :=
  ⟨1, 25, OrderStatus.PENDING,
   [⟨1, 1, "Widget", 2, 9, 18⟩, ⟨2, 2, "Gizmo", 1, 7, 7⟩]⟩

/-- Variant of `sampleTokenDB` whose token is already consumed. -/
def sampleTokenDBUsed : DB :=
  { sampleDB with reset_tokens := [⟨1, 7, "tok", 100, true⟩] }

/-- The state after user 7 successfully redeems the token of
`sampleTokenDB` at time 50: password rehashed, token consumed. -/
def sampleTokenDBAfter : DB :=
  { sampleDB with
      users := [⟨7, "Ada", "ada@x.com", "bcrypt$NewPass1x", UserRole.USER⟩]
      reset_tokens := [⟨1, 7, "tok", 100, true⟩] }

/-- The state after the unauthenticated signup of Eve with role string
`"ADMIN"` on an empty database. -/
def sampleSignupDB : DB :=
  { DB.empty with
      users := [⟨1, "Eve", "eve@x.com", "bcrypt$Passw0rd1", UserRole.ADMIN⟩]
      next_user_id := 2 }

/-- The response of that signup. -/
def sampleSignupResp : UserResponse :=
  ⟨1, "Eve", "eve@x.com", UserRole.ADMIN⟩

/-- The state after user 7 merges 3 more units of product 1 into
`sampleDB`: one line item with summed quantity 5 and refreshed price
snapshot 10. -/
def sampleDBMerged : DB :=
  { sampleDB with cart_items := [⟨1, 1, 1, 5, 10⟩, ⟨2, 1, 2, 1, 7⟩] }

/-- The state after user 7 sets the quantity of cart item 1 to 4 in
`sampleDB`: only that quantity changed. -/
def sampleDBUpd : DB :=
  { sampleDB with cart_items := [⟨1, 1, 1, 4, 9⟩, ⟨2, 1, 2, 1, 7⟩] }

/-! ## Library lemmas on the row-store encoding -/

/-- Lemma: mapping a function that does not change the value of the search
predicate commutes with `find?`. -/
theorem find?_map_of_pred_eq {α : Type} (g : α → α) (q : α → Bool)
    (hg : ∀ x, q (g x) = q x) (l : List α) :
    (l.map g).find? q = (l.find? q).map g := by
  induction l with
  | nil => rfl
  | cons x xs ih =>
    simp only [List.map_cons, List.find?_cons, hg x]
    cases hx : q x
    · exact ih
    · rfl

/-- Lemma: a filter returning a singleton pins down `find?`. -/
theorem find?_of_filter_singleton {α : Type} (q : α → Bool) (l : List α) (a : α)
    (h : l.filter q = [a]) : l.find? q = some a := by
  induction l with
  | nil => simp at h
  | cons x xs ih =>
    rw [List.filter_cons] at h
    by_cases hx : q x = true
    · rw [if_pos hx] at h
      rw [List.find?_cons, hx]
      exact congrArg some (List.cons_eq_cons.mp h).1
    · rw [if_neg hx] at h
      rw [List.find?_cons]
      rw [Bool.not_eq_true] at hx
      rw [hx]
      exact ih h

/-- Lemma: decrementing the stocks of one product id commutes with product
lookup (the update keeps every id). -/
theorem findProductIn_decProducts (ps : List Product) (item : ShoppingCartItem)
    (pid : Nat) :
    findProductIn (decProducts ps item) pid =
      (findProductIn ps pid).map (fun p =>
        if p.id == item.product_id then { p with stock := p.stock - item.quantity }
        else p) := by
  apply find?_map_of_pred_eq
  intro p
  cases h : (p.id == item.product_id) <;> simp [h]

/-- Lemma: decrementing stock for a different product id leaves a lookup
unchanged. -/
theorem findProductIn_decProducts_ne (ps : List Product) (item : ShoppingCartItem)
    (pid : Nat) (h : pid ≠ item.product_id) :
    findProductIn (decProducts ps item) pid = findProductIn ps pid := by
  rw [findProductIn_decProducts]
  cases hf : findProductIn ps pid with
  | none => rfl
  | some p =>
    have hp : p.id = pid := by simpa using List.find?_some hf
    simp [hp, h]

/-- Lemma: a run of decrements over items that never mention `pid` leaves
the lookup of `pid` unchanged. -/
theorem findProductIn_applyDecrements_not_mem (ps : List Product)
    (items : List ShoppingCartItem) (pid : Nat)
    (h : ∀ it ∈ items, it.product_id ≠ pid) :
    findProductIn (applyDecrements ps items) pid = findProductIn ps pid := by
  induction items generalizing ps with
  | nil => rfl
  | cons it rest ih =>
    simp only [applyDecrements]
    rw [ih _ (fun x hx => h x (List.mem_cons_of_mem _ hx)),
      findProductIn_decProducts_ne _ _ _
        (fun he => (h it (List.mem_cons_self _ _)) he.symm)]

/-- Lemma: when the items mention pairwise-distinct products, the run of
decrements updates the looked-up product of each item by exactly that
item's quantity. -/
theorem findProductIn_applyDecrements_mem (ps : List Product)
    (items : List ShoppingCartItem) (item : ShoppingCartItem)
    (hnd : (items.map (fun it => it.product_id)).Nodup)
    (hmem : item ∈ items) :
    findProductIn (applyDecrements ps items) item.product_id =
      (findProductIn ps item.product_id).map
        (fun p => { p with stock := p.stock - item.quantity }) := by
  induction items generalizing ps with
  | nil => cases hmem
  | cons it rest ih =>
    rw [List.map_cons, List.nodup_cons] at hnd
    rcases List.mem_cons.mp hmem with rfl | hmem'
    · simp only [applyDecrements]
      have hnotin : ∀ x ∈ rest, x.product_id ≠ item.product_id := by
        intro x hx he
        exact hnd.1 (he ▸ List.mem_map_of_mem (fun it => it.product_id) hx)
      rw [findProductIn_applyDecrements_not_mem _ _ _ hnotin,
        findProductIn_decProducts]
      cases hf : findProductIn ps item.product_id with
      | none => rfl
      | some p =>
        have hp : p.id = item.product_id := by simpa using List.find?_some hf
        simp [hp]
    · simp only [applyDecrements]
      have hne : item.product_id ≠ it.product_id := by
        intro he
        exact hnd.1 (he ▸ List.mem_map_of_mem (fun x => x.product_id) hmem')
      rw [ih _ hnd.2 hmem', findProductIn_decProducts_ne _ _ _ hne]

/-- Lemma: a run of decrements never changes whether a product id
resolves. -/
theorem findProductIn_applyDecrements_isSome (ps : List Product)
    (items : List ShoppingCartItem) (pid : Nat) :
    (findProductIn (applyDecrements ps items) pid).isSome =
      (findProductIn ps pid).isSome := by
  induction items generalizing ps with
  | nil => rfl
  | cons it rest ih =>
    simp only [applyDecrements]
    rw [ih, findProductIn_decProducts]
    cases findProductIn ps pid <;> rfl

/-- Lemma: the validation loop succeeds exactly when every cart item's
product resolves and holds at least the requested quantity — judged
entirely against the stocks passed in, with no decrement in between. -/
theorem stockCheck_ok_iff (ps : List Product) (items : List ShoppingCartItem) :
    stockCheck ps items = .ok () ↔
      ∀ it ∈ items, ∃ p, findProductIn ps it.product_id = some p ∧
        it.quantity ≤ p.stock := by
  induction items with
  | nil => simp [stockCheck]
  | cons it rest ih =>
    simp only [stockCheck]
    cases hf : findProductIn ps it.product_id with
    | none =>
      dsimp only
      constructor
      · intro h
        cases h
      · intro h
        obtain ⟨p, hp, _⟩ := h it (List.mem_cons_self _ _)
        rw [hf] at hp
        cases hp
    | some p =>
      dsimp only
      by_cases hs : p.stock < it.quantity
      · rw [if_pos hs]
        constructor
        · intro h
          cases h
        · intro h
          obtain ⟨q, hq, hle⟩ := h it (List.mem_cons_self _ _)
          rw [hf] at hq
          cases hq
          omega
      · rw [if_neg hs]
        rw [ih]
        constructor
        · intro h x hx
          rcases List.mem_cons.mp hx with rfl | hx'
          · exact ⟨p, hf, by omega⟩
          · exact h x hx'
        · intro h x hx
          exact h x (List.mem_cons_of_mem _ hx)

/-- Lemma: the validation loop reports the first violating item, naming
that item's product. -/
theorem stockCheck_error_first (ps : List Product)
    (pre post : List ShoppingCartItem) (item : ShoppingCartItem) (p : Product)
    (hpre : ∀ it ∈ pre, ∃ q, findProductIn ps it.product_id = some q ∧
      it.quantity ≤ q.stock)
    (hf : findProductIn ps item.product_id = some p)
    (hv : p.stock < item.quantity) :
    stockCheck ps (pre ++ item :: post) =
      .error ⟨422, "Insufficient stock for " ++ p.name⟩ := by
  induction pre with
  | nil =>
    simp only [List.nil_append, stockCheck, hf]
    rw [if_pos hv]
  | cons a pre ih =>
    obtain ⟨q, hq, hle⟩ := hpre a (List.mem_cons_self _ _)
    simp only [List.cons_append, stockCheck, hq]
    rw [if_neg (by omega)]
    exact ih (fun x hx => hpre x (List.mem_cons_of_mem _ hx))

/-- Lemma: every order item minted by the checkout loop carries the new
order's id. -/
theorem mkOrderItems_order_id (oid fid : Nat) (items : List ShoppingCartItem) :
    ∀ oi ∈ mkOrderItems oid fid items, oi.order_id = oid := by
  induction items generalizing fid with
  | nil => intro oi h; cases h
  | cons it rest ih =>
    intro oi h
    rcases List.mem_cons.mp h with rfl | h'
    · rfl
    · exact ih _ oi h'

/-- Lemma: every order item minted by the checkout loop mirrors some cart
item's product, quantity and snapshotted price. -/
theorem mkOrderItems_mem (oid fid : Nat) (items : List ShoppingCartItem) :
    ∀ oi ∈ mkOrderItems oid fid items,
      ∃ it ∈ items, oi.product_id = it.product_id ∧ oi.quantity = it.quantity ∧
        oi.price = it.price := by
  induction items generalizing fid with
  | nil => intro oi h; cases h
  | cons it rest ih =>
    intro oi h
    rcases List.mem_cons.mp h with rfl | h'
    · exact ⟨it, List.mem_cons_self _ _, rfl, rfl, rfl⟩
    · obtain ⟨x, hx, hh⟩ := ih _ oi h'
      exact ⟨x, List.mem_cons_of_mem _ hx, hh⟩

/-- Lemma: the minted order items reproduce, in order, the product id,
quantity and snapshotted price of each cart item. -/
theorem mkOrderItems_triples (oid fid : Nat) (items : List ShoppingCartItem) :
    (mkOrderItems oid fid items).map (fun oi => (oi.product_id, oi.quantity, oi.price)) =
      items.map (fun it => (it.product_id, it.quantity, it.price)) := by
  induction items generalizing fid with
  | nil => rfl
  | cons it rest ih =>
    simp only [mkOrderItems, List.map_cons]
    rw [ih]

/-- Lemma: the minted order items reproduce, in order, the quantity and
snapshotted price of each cart item. -/
theorem mkOrderItems_pairs (oid fid : Nat) (items : List ShoppingCartItem) :
    (mkOrderItems oid fid items).map (fun oi => (oi.quantity, oi.price)) =
      items.map (fun it => (it.quantity, it.price)) := by
  induction items generalizing fid with
  | nil => rfl
  | cons it rest ih =>
    simp only [mkOrderItems, List.map_cons]
    rw [ih]

/-- Lemma: the response join succeeds whenever every referenced product
resolves. -/
theorem buildItemsInfo_isSome (ps : List Product) (ois : List OrderItem)
    (h : ∀ oi ∈ ois, (findProductIn ps oi.product_id).isSome = true) :
    (buildItemsInfo ps ois).isSome = true := by
  induction ois with
  | nil => rfl
  | cons oi rest ih =>
    have h1 := h oi (List.mem_cons_self _ _)
    cases hf : findProductIn ps oi.product_id with
    | none => rw [hf] at h1; cases h1
    | some p =>
      have h2 := ih (fun x hx => h x (List.mem_cons_of_mem _ hx))
      cases hb : buildItemsInfo ps rest with
      | none => rw [hb] at h2; cases h2
      | some out => simp [buildItemsInfo, hf, hb]

/-- Lemma: full inversion of a successful checkout: the cart existed and
was non-empty, validation passed against the pre-checkout stocks, and the
result state is exactly the committed one — order appended, order items
minted, stocks decremented, this cart's items deleted, everything else
untouched. -/
theorem checkout_ok_inv (db : DB) (uid : Nat) (info : OrderInfo) (db' : DB)
    (h : checkout db uid = (.ok info, db')) :
    ∃ cart,
      db.carts.find? (fun c => c.user_id == uid) = some cart ∧
      cartItemsOf db cart.id ≠ [] ∧
      stockCheck db.products (cartItemsOf db cart.id) = .ok () ∧
      info.id = db.next_order_id ∧
      info.total =
        ((cartItemsOf db cart.id).map (fun it => it.quantity * it.price)).sum ∧
      info.status = OrderStatus.PENDING ∧
      db'.products = applyDecrements db.products (cartItemsOf db cart.id) ∧
      db'.cart_items = db.cart_items.filter (fun ci => !(ci.cart_id == cart.id)) ∧
      db'.orders = db.orders ++
        [⟨db.next_order_id, uid,
          ((cartItemsOf db cart.id).map (fun it => it.quantity * it.price)).sum,
          OrderStatus.PENDING⟩] ∧
      db'.order_items = db.order_items ++
        mkOrderItems db.next_order_id db.next_order_item_id (cartItemsOf db cart.id) ∧
      db'.users = db.users ∧ db'.carts = db.carts ∧
      db'.reset_tokens = db.reset_tokens := by
  unfold checkout at h
  cases hc : db.carts.find? (fun c => c.user_id == uid) with
  | none =>
    rw [hc] at h
    cases h
  | some cart =>
    rw [hc] at h
    dsimp only at h
    cases hne : (cartItemsOf db cart.id).isEmpty with
    | true =>
      rw [if_pos (by rw [hne])] at h
      cases h
    | false =>
      rw [if_neg (by rw [hne]; exact Bool.false_ne_true)] at h
      cases hsc : stockCheck db.products (cartItemsOf db cart.id) with
      | error e =>
        rw [hsc] at h
        cases h
      | ok u =>
        cases u
        rw [hsc] at h
        dsimp only at h
        cases hb : buildItemsInfo
            (applyDecrements db.products (cartItemsOf db cart.id))
            (mkOrderItems db.next_order_id db.next_order_item_id
              (cartItemsOf db cart.id)) with
        | none =>
          rw [hb] at h
          cases h
        | some out =>
          rw [hb] at h
          dsimp only at h
          injection h with h1 h2
          injection h1 with h1
          subst h1
          subst h2
          refine ⟨cart, rfl, ?_, hsc, rfl, rfl, rfl, rfl, rfl, rfl, rfl, rfl, rfl, rfl⟩
          intro hnil
          rw [hnil] at hne
          exact Bool.noConfusion hne

/-- Lemma: a failed checkout observes the untouched input state: the empty
cart and insufficient stock raises happen before any write, and the
response-join branch cannot fail after validation passed, because every
validated product still resolves after the decrements. -/
theorem checkout_error_rollback (db : DB) (uid : Nat) (e : HttpError) (db' : DB)
    (h : checkout db uid = (.error e, db')) : db' = db := by
  unfold checkout at h
  cases hc : db.carts.find? (fun c => c.user_id == uid) with
  | none =>
    rw [hc] at h
    injection h with h1 h2
    exact h2.symm
  | some cart =>
    rw [hc] at h
    dsimp only at h
    cases hne : (cartItemsOf db cart.id).isEmpty with
    | true =>
      rw [if_pos (by rw [hne])] at h
      injection h with h1 h2
      exact h2.symm
    | false =>
      rw [if_neg (by rw [hne]; exact Bool.false_ne_true)] at h
      cases hsc : stockCheck db.products (cartItemsOf db cart.id) with
      | error e0 =>
        rw [hsc] at h
        injection h with h1 h2
        exact h2.symm
      | ok u =>
        cases u
        rw [hsc] at h
        dsimp only at h
        have hsome : (buildItemsInfo
            (applyDecrements db.products (cartItemsOf db cart.id))
            (mkOrderItems db.next_order_id db.next_order_item_id
              (cartItemsOf db cart.id))).isSome = true := by
          apply buildItemsInfo_isSome
          intro oi hoi
          obtain ⟨it, hit, hpid, _, _⟩ := mkOrderItems_mem _ _ _ oi hoi
          rw [hpid, findProductIn_applyDecrements_isSome]
          obtain ⟨p, hp, _⟩ := (stockCheck_ok_iff _ _).mp hsc it hit
          rw [hp]
          rfl
        cases hb : buildItemsInfo
            (applyDecrements db.products (cartItemsOf db cart.id))
            (mkOrderItems db.next_order_id db.next_order_item_id
              (cartItemsOf db cart.id)) with
        | none =>
          rw [hb] at hsome
          cases hsome
        | some out =>
          rw [hb] at h
          cases h

/-- Lemma: replacing, by id, the unique row matching a predicate keeps the
match unique when all ids are distinct. -/
theorem filter_map_replace_by_id (l : List ShoppingCartItem)
    (q : ShoppingCartItem → Bool) (a a' : ShoppingCartItem)
    (hid : a'.id = a.id)
    (hnd : (l.map (fun x => x.id)).Nodup)
    (hf : l.filter q = [a]) (hqa' : q a' = true) :
    (l.map (fun x => if x.id == a.id then a' else x)).filter q = [a'] := by
  induction l with
  | nil => simp at hf
  | cons x xs ih =>
    rw [List.map_cons, List.nodup_cons] at hnd
    rw [List.filter_cons] at hf
    by_cases hx : q x = true
    · rw [if_pos hx] at hf
      obtain ⟨hxa, hrest⟩ := List.cons_eq_cons.mp hf
      subst hxa
      rw [List.map_cons, List.filter_cons]
      have hfx : (if x.id == x.id then a' else x) = a' := if_pos (beq_self_eq_true _)
      rw [hfx, if_pos hqa']
      have hxs : (xs.map (fun y => if y.id == x.id then a' else y)).filter q = [] := by
        apply List.filter_eq_nil_iff.mpr
        intro z hz
        obtain ⟨y, hy, rfl⟩ := List.mem_map.mp hz
        have hne : y.id ≠ x.id := by
          intro he
          exact hnd.1 (he ▸ List.mem_map_of_mem (fun w => w.id) hy)
        rw [if_neg (by simpa using hne)]
        exact List.filter_eq_nil_iff.mp hrest y hy
      rw [hxs]
    · rw [if_neg hx] at hf
      have hamem : a ∈ xs :=
        List.mem_of_mem_filter (hf ▸ List.mem_singleton_self a)
      have hxne : x.id ≠ a.id := by
        intro he
        exact hnd.1 (he ▸ List.mem_map_of_mem (fun w => w.id) hamem)
      rw [List.map_cons, List.filter_cons,
        if_neg (show ¬((x.id == a.id) = true) by simpa using hxne), if_neg hx]
      exact ih hnd.2 hf

/-- Lemma: a validated role string is the lowercased input. -/
theorem validate_role_ok (v r : String) (h : validate_role v = .ok r) :
    r = lowerString v := by
  unfold validate_role at h
  by_cases hc : (lowerString v == "user" || lowerString v == "admin") = true
  · rw [if_pos hc] at h
    injection h with h
    exact h.symm
  · rw [if_neg hc] at h
    cases h

/-- Lemma: a validated signup body keeps the submitted email and stores
the lowercased role. -/
theorem validateUserCreate_ok (raw u : UserCreate)
    (h : validateUserCreate raw = .ok u) :
    u.email = raw.email ∧ u.role = lowerString raw.role := by
  unfold validateUserCreate at h
  cases h1 : validate_name raw.name with
  | error m => rw [h1] at h; cases h
  | ok nm =>
    rw [h1] at h
    cases h2 : validate_password raw.password with
    | error m => rw [h2] at h; cases h
    | ok pw =>
      rw [h2] at h
      cases h3 : validate_role raw.role with
      | error m => rw [h3] at h; cases h
      | ok ro =>
        rw [h3] at h
        have hro := validate_role_ok raw.role ro h3
        injection h with h
        subst h
        exact ⟨rfl, hro⟩

/-! ## Claims -/

/-- Claim C1: checkout is atomic. Under the schema invariants that each
cart references pairwise-distinct products and that the next order id is
fresh, every checkout request either fails leaving the database exactly as
it was, or succeeds having created the order row, minted one order item
per cart item (mirroring product, quantity, price), decremented every
referenced product's stock by exactly that item's quantity, and emptied
the cart. -/
theorem checkout_atomic (db : DB) (uid : Nat)
    (hnd : ∀ cart ∈ db.carts,
      ((cartItemsOf db cart.id).map (fun ci => ci.product_id)).Nodup)
    (hfresh : ∀ oi ∈ db.order_items, oi.order_id ≠ db.next_order_id) :
    (∀ e db', checkout db uid = (.error e, db') → db' = db) ∧
    (∀ info db', checkout db uid = (.ok info, db') →
      ∃ cart, db.carts.find? (fun c => c.user_id == uid) = some cart ∧
        cartItemsOf db cart.id ≠ [] ∧
        (⟨db.next_order_id, uid,
          ((cartItemsOf db cart.id).map (fun it => it.quantity * it.price)).sum,
          OrderStatus.PENDING⟩ : Order) ∈ db'.orders ∧
        (db'.order_items.filter (fun oi => oi.order_id == db.next_order_id)).map
            (fun oi => (oi.product_id, oi.quantity, oi.price)) =
          (cartItemsOf db cart.id).map
            (fun it => (it.product_id, it.quantity, it.price)) ∧
        (∀ it ∈ cartItemsOf db cart.id, ∀ p,
          findProductIn db.products it.product_id = some p →
          findProductIn db'.products it.product_id =
            some { p with stock := p.stock - it.quantity }) ∧
        cartItemsOf db' cart.id = []) := by
  constructor
  · intro e db' h
    exact checkout_error_rollback db uid e db' h
  · intro info db' h
    obtain ⟨cart, hc, hne, hsc, hid, htot, hst, hprod, hci, hord, hoi, _, _, _⟩ :=
      checkout_ok_inv db uid info db' h
    refine ⟨cart, hc, hne, ?_, ?_, ?_, ?_⟩
    · rw [hord]
      exact List.mem_append_right _ (List.mem_singleton_self _)
    · rw [hoi, List.filter_append]
      have h1 : db.order_items.filter (fun oi => oi.order_id == db.next_order_id) = [] :=
        List.filter_eq_nil_iff.mpr (fun oi hmem => by simpa using hfresh oi hmem)
      have h2 : (mkOrderItems db.next_order_id db.next_order_item_id
          (cartItemsOf db cart.id)).filter (fun oi => oi.order_id == db.next_order_id) =
          mkOrderItems db.next_order_id db.next_order_item_id (cartItemsOf db cart.id) :=
        List.filter_eq_self.mpr (fun oi hmem => by
          simpa using mkOrderItems_order_id _ _ _ oi hmem)
      rw [h1, h2, List.nil_append, mkOrderItems_triples]
    · intro it hit p hp
      rw [hprod,
        findProductIn_applyDecrements_mem _ _ _
          (hnd cart (List.mem_of_find?_eq_some hc)) hit, hp]
      rfl
    · rw [cartItemsOf, hci, List.filter_filter]
      apply List.filter_eq_nil_iff.mpr
      intro ci _
      cases hcid : (ci.cart_id == cart.id) <;> simp [hcid]

/-- Witness for C1: user 7 checking out `sampleDB` hits the success branch
of `checkout_atomic` with all hypotheses discharged on concrete data. -/
theorem checkout_atomic_witness :
    ∃ cart, sampleDB.carts.find? (fun c => c.user_id == 7) = some cart ∧
      cartItemsOf sampleDB cart.id ≠ [] ∧
      (⟨sampleDB.next_order_id, 7,
        ((cartItemsOf sampleDB cart.id).map (fun it => it.quantity * it.price)).sum,
        OrderStatus.PENDING⟩ : Order) ∈ sampleDBAfter.orders ∧
      (sampleDBAfter.order_items.filter
          (fun oi => oi.order_id == sampleDB.next_order_id)).map
          (fun oi => (oi.product_id, oi.quantity, oi.price)) =
        (cartItemsOf sampleDB cart.id).map
          (fun it => (it.product_id, it.quantity, it.price)) ∧
      (∀ it ∈ cartItemsOf sampleDB cart.id, ∀ p,
        findProductIn sampleDB.products it.product_id = some p →
        findProductIn sampleDBAfter.products it.product_id =
          some { p with stock := p.stock - it.quantity }) ∧
      cartItemsOf sampleDBAfter cart.id = [] :=
  (checkout_atomic sampleDB 7 (by decide) (by decide)).2 sampleOrderInfo
    sampleDBAfter rfl

/-- Claim C2: on a successful checkout the order total is the sum of
`quantity * price` over the cart items, taken from the snapshotted cart
prices (the sum never reads the product table), and each minted order item
copies its cart item's quantity and snapshotted price. -/
theorem checkout_total_from_snapshots (db : DB) (uid : Nat)
    (hfresh : ∀ oi ∈ db.order_items, oi.order_id ≠ db.next_order_id) :
    ∀ info db', checkout db uid = (.ok info, db') →
      ∃ cart, db.carts.find? (fun c => c.user_id == uid) = some cart ∧
        info.total =
          ((cartItemsOf db cart.id).map (fun it => it.quantity * it.price)).sum ∧
        (db'.order_items.filter (fun oi => oi.order_id == db.next_order_id)).map
            (fun oi => (oi.quantity, oi.price)) =
          (cartItemsOf db cart.id).map (fun it => (it.quantity, it.price)) := by
  intro info db' h
  obtain ⟨cart, hc, hne, hsc, hid, htot, hst, hprod, hci, hord, hoi, _, _, _⟩ :=
    checkout_ok_inv db uid info db' h
  refine ⟨cart, hc, htot, ?_⟩
  rw [hoi, List.filter_append]
  have h1 : db.order_items.filter (fun oi => oi.order_id == db.next_order_id) = [] :=
    List.filter_eq_nil_iff.mpr (fun oi hmem => by simpa using hfresh oi hmem)
  have h2 : (mkOrderItems db.next_order_id db.next_order_item_id
      (cartItemsOf db cart.id)).filter (fun oi => oi.order_id == db.next_order_id) =
      mkOrderItems db.next_order_id db.next_order_item_id (cartItemsOf db cart.id) :=
    List.filter_eq_self.mpr (fun oi hmem => by
      simpa using mkOrderItems_order_id _ _ _ oi hmem)
  rw [h1, h2, List.nil_append, mkOrderItems_pairs]

/-- Witness for C2: on `sampleDB` the order total equals
`2 * 9 + 1 * 7 = 25` from the snapshotted cart prices (9 and 7), not from
the live product prices (10 and 7). -/
theorem checkout_total_from_snapshots_witness :
    (∃ cart, sampleDB.carts.find? (fun c => c.user_id == 7) = some cart ∧
      sampleOrderInfo.total =
        ((cartItemsOf sampleDB cart.id).map (fun it => it.quantity * it.price)).sum ∧
      (sampleDBAfter.order_items.filter
          (fun oi => oi.order_id == sampleDB.next_order_id)).map
          (fun oi => (oi.quantity, oi.price)) =
        (cartItemsOf sampleDB cart.id).map (fun it => (it.quantity, it.price))) ∧
    sampleOrderInfo.total = 25 :=
  ⟨checkout_total_from_snapshots sampleDB 7 (by decide) sampleOrderInfo
    sampleDBAfter rfl, rfl⟩

/-- Claim C3: a checkout whose cart is missing or empty fails with the 422
`Empty Cart` error and leaves the database — in particular its order
table — exactly as it was. -/
theorem checkout_empty_cart_rejected (db : DB) (uid : Nat)
    (h : ∀ cart ∈ db.carts, cart.user_id = uid → cartItemsOf db cart.id = []) :
    checkout db uid = (.error emptyCartError, db) ∧
    (checkout db uid).2.orders = db.orders := by
  have hmain : checkout db uid = (.error emptyCartError, db) := by
    unfold checkout
    cases hc : db.carts.find? (fun c => c.user_id == uid) with
    | none => rfl
    | some cart =>
      have hmem := List.mem_of_find?_eq_some hc
      have huid : cart.user_id = uid := by simpa using List.find?_some hc
      have hempty := h cart hmem huid
      dsimp only
      rw [if_pos (by rw [hempty]; rfl)]
  exact ⟨hmain, by rw [hmain]⟩

/-- Witness for C3: user 7 owns a cart with zero items; checkout returns
the 422 `Empty Cart` error and the state, orders included, is untouched. -/
theorem checkout_empty_cart_rejected_witness :
    checkout { sampleDB with cart_items := [] } 7 =
      (.error emptyCartError, { sampleDB with cart_items := [] }) ∧
    (checkout { sampleDB with cart_items := [] } 7).2.orders =
      { sampleDB with cart_items := [] }.orders :=
  checkout_empty_cart_rejected { sampleDB with cart_items := [] } 7 (by decide)

/-- Claim C4: checkout validates every cart item against the
pre-checkout stock before performing any decrement: given the caller's
non-empty cart, checkout can succeed exactly when every item's product
resolves and satisfies `quantity ≤ stock` as recorded before checkout
(so the check on a later item is never re-judged against an earlier
item's decrement), and the first item violating the bound makes checkout
fail with the 422 error naming that item's product, the state staying
untouched. -/
theorem checkout_stock_validation (db : DB) (uid : Nat) (cart : ShoppingCart)
    (hc : db.carts.find? (fun c => c.user_id == uid) = some cart)
    (hne : cartItemsOf db cart.id ≠ []) :
    ((∃ info db', checkout db uid = (.ok info, db')) ↔
      ∀ it ∈ cartItemsOf db cart.id, ∃ p,
        findProductIn db.products it.product_id = some p ∧
        it.quantity ≤ p.stock) ∧
    (∀ pre item post p,
      cartItemsOf db cart.id = pre ++ item :: post →
      (∀ it ∈ pre, ∃ q, findProductIn db.products it.product_id = some q ∧
        it.quantity ≤ q.stock) →
      findProductIn db.products item.product_id = some p →
      p.stock < item.quantity →
      checkout db uid = (.error ⟨422, "Insufficient stock for " ++ p.name⟩, db)) := by
  have hnotempty : ¬((cartItemsOf db cart.id).isEmpty = true) := by
    intro hemp
    exact hne (List.isEmpty_iff.mp hemp)
  constructor
  · constructor
    · rintro ⟨info, db', h⟩
      obtain ⟨cart2, hc2, _, hsc, _⟩ := checkout_ok_inv db uid info db' h
      rw [hc] at hc2
      injection hc2 with hc2
      subst hc2
      exact (stockCheck_ok_iff _ _).mp hsc
    · intro hall
      have hsc : stockCheck db.products (cartItemsOf db cart.id) = .ok () :=
        (stockCheck_ok_iff _ _).mpr hall
      have hsome : (buildItemsInfo
          (applyDecrements db.products (cartItemsOf db cart.id))
          (mkOrderItems db.next_order_id db.next_order_item_id
            (cartItemsOf db cart.id))).isSome = true := by
        apply buildItemsInfo_isSome
        intro oi hoi
        obtain ⟨it, hit, hpid, _, _⟩ := mkOrderItems_mem _ _ _ oi hoi
        rw [hpid, findProductIn_applyDecrements_isSome]
        obtain ⟨p, hp, _⟩ := hall it hit
        rw [hp]
        rfl
      unfold checkout
      rw [hc]
      dsimp only
      rw [if_neg hnotempty, hsc]
      dsimp only
      cases hb : buildItemsInfo
          (applyDecrements db.products (cartItemsOf db cart.id))
          (mkOrderItems db.next_order_id db.next_order_item_id
            (cartItemsOf db cart.id)) with
      | none =>
        rw [hb] at hsome
        cases hsome
      | some out => exact ⟨_, _, rfl⟩
  · intro pre item post p hsplit hpre hf hv
    unfold checkout
    rw [hc]
    dsimp only
    rw [if_neg hnotempty, hsplit, stockCheck_error_first db.products pre post item p hpre hf hv]

/-- Witness for C4: in `sampleDBShort` the second cart item asks for 3
units of Gizmo (stock 1) while the first item passes; checkout fails with
the 422 error naming Gizmo and the state is untouched. -/
theorem checkout_stock_validation_witness :
    checkout sampleDBShort 7 =
      (.error ⟨422, "Insufficient stock for Gizmo"⟩, sampleDBShort) :=
  (checkout_stock_validation sampleDBShort 7 ⟨1, 7⟩ (by decide) (by decide)).2
    [⟨1, 1, 1, 2, 9⟩] ⟨2, 1, 2, 3, 7⟩ [] gizmo (by decide)
    (by
      intro it hit
      rw [List.mem_singleton] at hit
      subst hit
      exact ⟨widget, rfl, by decide⟩)
    rfl (by decide)

/-- Claim C5: redeeming a password-reset token checks existence first
(`resetTokenMissingError`, the spec's NotFound), then the used flag
(`resetTokenUsedError`, AlreadyUsed — taking precedence over expiry), then
expiry (`resetTokenExpiredError`, Expired); and any second redemption of a
token just redeemed fails AlreadyUsed. The function returns exactly one of
these outcomes per attempt. -/
theorem reset_password_check_order (db : DB) (now : Int) (request : ResetPassword) :
    (db.reset_tokens.find? (fun t => t.reset_token == request.reset_token) = none →
      reset_password db now request = (.error resetTokenMissingError, db)) ∧
    (∀ tok,
      db.reset_tokens.find? (fun t => t.reset_token == request.reset_token) = some tok →
      tok.is_used = true →
      reset_password db now request = (.error resetTokenUsedError, db)) ∧
    (∀ tok,
      db.reset_tokens.find? (fun t => t.reset_token == request.reset_token) = some tok →
      tok.is_used = false → tok.expiry_period < now →
      reset_password db now request = (.error resetTokenExpiredError, db)) ∧
    (∀ r db', reset_password db now request = (.ok r, db') →
      ∀ later, reset_password db' later request = (.error resetTokenUsedError, db')) := by
  refine ⟨?_, ?_, ?_, ?_⟩
  · intro h
    unfold reset_password
    rw [h]
  · intro tok hfind hused
    unfold reset_password
    rw [hfind]
    dsimp only
    rw [if_pos hused]
  · intro tok hfind hused hexp
    unfold reset_password
    rw [hfind]
    dsimp only
    rw [if_neg (by rw [hused]; exact Bool.false_ne_true), if_pos hexp]
  · intro r db' h later
    unfold reset_password at h
    cases hfind : db.reset_tokens.find? (fun t => t.reset_token == request.reset_token) with
    | none => rw [hfind] at h; cases h
    | some tok =>
      rw [hfind] at h
      dsimp only at h
      cases hused : tok.is_used with
      | true => rw [if_pos hused] at h; cases h
      | false =>
        rw [if_neg (by rw [hused]; exact Bool.false_ne_true)] at h
        by_cases hexp : tok.expiry_period < now
        · rw [if_pos hexp] at h; cases h
        · rw [if_neg hexp] at h
          cases huser : db.users.find? (fun u => u.id == tok.user_id) with
          | none => rw [huser] at h; cases h
          | some user =>
            rw [huser] at h
            dsimp only at h
            injection h with h1 h2
            subst h2
            have hpred : ∀ t : ResetPassToken,
                ((if t.id == tok.id then { t with is_used := true } else t).reset_token ==
                  request.reset_token) = (t.reset_token == request.reset_token) := by
              intro t
              cases ht : (t.id == tok.id) <;> simp [ht]
            have hfind' :
                (db.reset_tokens.map
                  (fun t => if t.id == tok.id then { t with is_used := true } else t)).find?
                    (fun t => t.reset_token == request.reset_token) =
                  some { tok with is_used := true } := by
              rw [find?_map_of_pred_eq _ _ hpred, hfind]
              dsimp only [Option.map]
              rw [if_pos (beq_self_eq_true _)]
            unfold reset_password
            dsimp only
            rw [hfind']
            dsimp only
            rw [if_pos rfl]

/-- Witness for C5: the three failure branches and the double redemption,
each on concrete data: no token row, a consumed token, an expired token
(created to expire at 100, redeemed at 200), and a token redeemed a second
time right after a successful reset. -/
theorem reset_password_check_order_witness :
    reset_password DB.empty 0 ⟨"tok", "NewPass1x"⟩ =
      (.error resetTokenMissingError, DB.empty) ∧
    reset_password sampleTokenDBUsed 50 ⟨"tok", "NewPass1x"⟩ =
      (.error resetTokenUsedError, sampleTokenDBUsed) ∧
    reset_password sampleTokenDB 200 ⟨"tok", "NewPass1x"⟩ =
      (.error resetTokenExpiredError, sampleTokenDB) ∧
    reset_password sampleTokenDBAfter 50 ⟨"tok", "NewPass1x"⟩ =
      (.error resetTokenUsedError, sampleTokenDBAfter) :=
  ⟨(reset_password_check_order DB.empty 0 ⟨"tok", "NewPass1x"⟩).1 rfl,
   (reset_password_check_order sampleTokenDBUsed 50 ⟨"tok", "NewPass1x"⟩).2.1
     ⟨1, 7, "tok", 100, true⟩ rfl rfl,
   (reset_password_check_order sampleTokenDB 200 ⟨"tok", "NewPass1x"⟩).2.2.1
     ⟨1, 7, "tok", 100, false⟩ rfl rfl (by decide),
   (reset_password_check_order sampleTokenDB 50 ⟨"tok", "NewPass1x"⟩).2.2.2
     () sampleTokenDBAfter rfl 50⟩

/-- Claim C6: adding a product that is already a line item of the caller's
cart (with the stock check passing) increments that line item's quantity
by the requested amount and refreshes its price snapshot to the product's
current price; the cart keeps exactly one line item for the product and
the cart's size is unchanged. -/
theorem add_item_merges_line (db : DB) (uid : Nat) (item_data : CreateCartItem)
    (product : Product) (cart : ShoppingCart) (ci : ShoppingCartItem)
    (hq : 0 < item_data.quantity)
    (hp : findProductIn db.products item_data.product_id = some product)
    (hs : ¬(product.stock < item_data.quantity))
    (hcart : db.carts.find? (fun c => c.user_id == uid) = some cart)
    (hone : db.cart_items.filter
      (fun x => x.cart_id == cart.id && x.product_id == item_data.product_id) = [ci])
    (hnd : (db.cart_items.map (fun x => x.id)).Nodup) :
    ∃ resp db', add_item db uid item_data = (.ok resp, db') ∧
      db'.cart_items.filter
        (fun x => x.cart_id == cart.id && x.product_id == item_data.product_id) =
        [{ ci with quantity := ci.quantity + item_data.quantity,
                   price := product.price }] ∧
      db'.cart_items.length = db.cart_items.length ∧
      (∀ x ∈ db.cart_items, x.id ≠ ci.id → x ∈ db'.cart_items) ∧
      resp.quantity = ci.quantity + item_data.quantity ∧
      resp.price = product.price := by
  have hfind := find?_of_filter_singleton _ db.cart_items ci hone
  have hci_mem : ci ∈ db.cart_items.filter
      (fun x => x.cart_id == cart.id && x.product_id == item_data.product_id) := by
    rw [hone]
    exact List.mem_singleton_self ci
  have hq_ci : (ci.cart_id == cart.id && ci.product_id == item_data.product_id) = true :=
    (List.mem_filter.mp hci_mem).2
  unfold add_item
  rw [if_neg (by omega), hp]
  dsimp only
  rw [if_neg hs, hcart]
  dsimp only
  rw [hfind]
  dsimp only
  refine ⟨_, _, rfl, ?_, ?_, ?_, rfl, rfl⟩
  · exact filter_map_replace_by_id db.cart_items _ ci _ rfl hnd hone
      (by simpa using hq_ci)
  · exact List.length_map _ _
  · intro x hx hne
    have hfx : (if x.id == ci.id then
        ({ ci with quantity := ci.quantity + item_data.quantity,
                   price := product.price } : ShoppingCartItem) else x) = x :=
      if_neg (by simpa using hne)
    exact hfx ▸ List.mem_map_of_mem _ hx

/-- Witness for C6: product 1 is already in user 7's cart as 2 units at
snapshot price 9; adding 3 more units yields one line item with quantity 5
and refreshed snapshot price 10, the live product price. -/
theorem add_item_merges_line_witness :
    ∃ resp db', add_item sampleDB 7 ⟨1, 3⟩ = (.ok resp, db') ∧
      db'.cart_items.filter (fun x => x.cart_id == 1 && x.product_id == 1) =
        [⟨1, 1, 1, 5, 10⟩] ∧
      db'.cart_items.length = sampleDB.cart_items.length ∧
      (∀ x ∈ sampleDB.cart_items, x.id ≠ 1 → x ∈ db'.cart_items) ∧
      resp.quantity = 5 ∧
      resp.price = 10 :=
  add_item_merges_line sampleDB 7 ⟨1, 3⟩ widget ⟨1, 7⟩ ⟨1, 1, 1, 2, 9⟩
    (by decide) rfl (by decide) rfl rfl (by decide)

/-- Claim C7 (observed divergence): with two products in store and no
filters, page 2 of size 10 has `total = 2 > 0` and an empty page; the
handler's own `raise HTTPException(404)` is swallowed by its blanket
`except Exception`, so the client observes a 500 `Internal server error`
where the intended (and specified) outcome was the 404. -/
theorem list_products_page_beyond_results_masked :
    (sampleDB.products.filter (matchesFilters none none none)).length = 2 ∧
    list_products_inner sampleDB none none none none 2 10 =
      .error ⟨404, "No products found for the specified page"⟩ ∧
    list_products sampleDB none none none none 2 10 =
      .error ⟨500, "Internal server error"⟩ :=
  ⟨rfl, rfl, rfl⟩

/-- Claim C8: fetching an order by id is ownership-scoped: when every
order carrying the requested id belongs to someone other than the caller,
the endpoint answers the same 404 NotFound it answers when no order with
that id exists at all — never a 403. -/
theorem get_order_other_user_not_found (db : DB) (uid order_id : Nat)
    (h : ∀ o ∈ db.orders, o.id = order_id → o.user_id ≠ uid) :
    get_order_info db uid order_id = .error ⟨404, "Order not found"⟩ ∧
    get_order_info
        { db with orders := db.orders.filter (fun o => !(o.id == order_id)) }
        uid order_id = .error ⟨404, "Order not found"⟩ := by
  constructor
  · have h1 : db.orders.find? (fun o => o.id == order_id && o.user_id == uid) = none := by
      apply List.find?_eq_none.mpr
      intro o ho hb
      simp only [Bool.and_eq_true, beq_iff_eq] at hb
      exact h o ho hb.1 hb.2
    unfold get_order_info
    rw [h1]
  · have h2 : (db.orders.filter (fun o => !(o.id == order_id))).find?
        (fun o => o.id == order_id && o.user_id == uid) = none := by
      apply List.find?_eq_none.mpr
      intro o ho hb
      simp only [Bool.and_eq_true, beq_iff_eq] at hb
      have := (List.mem_filter.mp ho).2
      rw [hb.1] at this
      simp at this
    unfold get_order_info
    rw [h2]

/-- Witness for C8: order 1 of `sampleOrderDB` belongs to user 9; caller 7
receives the 404, identically with the order row removed. -/
theorem get_order_other_user_not_found_witness :
    get_order_info sampleOrderDB 7 1 = .error ⟨404, "Order not found"⟩ ∧
    get_order_info
        { sampleOrderDB with
            orders := sampleOrderDB.orders.filter (fun o => !(o.id == 1)) }
        7 1 = .error ⟨404, "Order not found"⟩ :=
  get_order_other_user_not_found sampleOrderDB 7 1 (by decide)

/-- Claim C9: a successful signup appends exactly one user whose role is
`ADMIN` precisely when the lowercased submitted role string is `"admin"`
(and `USER` otherwise); and since `signup` consumes no credential at all —
its only inputs are the store and the request body — an unauthenticated
caller can mint an admin account by submitting `role = "admin"`, as the
closed second conjunct exhibits on the empty store. -/
theorem signup_role_assignment :
    (∀ db raw resp db', signup db raw = (.ok resp, db') →
      ∃ nu : User, db'.users = db.users ++ [nu] ∧ nu.email = raw.email ∧
        resp.role = nu.role ∧
        (nu.role = UserRole.ADMIN ↔ lowerString raw.role = "admin") ∧
        (nu.role = UserRole.USER ↔ lowerString raw.role ≠ "admin")) ∧
    (∃ resp db',
      signup DB.empty ⟨"Mallory", "m@x.com", "Passw0rd1", "admin"⟩ =
        (.ok resp, db') ∧ resp.role = UserRole.ADMIN) := by
  constructor
  · intro db raw resp db' h
    unfold signup at h
    cases hv : validateUserCreate raw with
    | error m => rw [hv] at h; cases h
    | ok u =>
      rw [hv] at h
      dsimp only at h
      obtain ⟨hem, hrole⟩ := validateUserCreate_ok raw u hv
      by_cases hex : (db.users.find? (fun x => x.email == u.email)).isSome = true
      · rw [if_pos hex] at h; cases h
      · rw [if_neg hex] at h
        injection h with h1 h2
        injection h1 with h1
        subst h1
        subst h2
        refine ⟨_, rfl, hem, rfl, ?_, ?_⟩
        · rw [← hrole]
          cases hadm : (u.role == "admin") with
          | true =>
            have hr : u.role = "admin" := by simpa using hadm
            simp [hr]
          | false =>
            have hr : u.role ≠ "admin" := by simpa using hadm
            simp [hr]
        · rw [← hrole]
          cases hadm : (u.role == "admin") with
          | true =>
            have hr : u.role = "admin" := by simpa using hadm
            simp [hr]
          | false =>
            have hr : u.role ≠ "admin" := by simpa using hadm
            simp [hr]
  · exact ⟨⟨1, "Mallory", "m@x.com", UserRole.ADMIN⟩,
      { DB.empty with
          users := [⟨1, "Mallory", "m@x.com", "bcrypt$Passw0rd1", UserRole.ADMIN⟩]
          next_user_id := 2 },
      rfl, rfl⟩

/-- Witness for C9: Eve signs up on the empty store with role string
`"ADMIN"`; the one appended user is an admin (the lowercased role equals
`"admin"`). -/
theorem signup_role_assignment_witness :
    ∃ nu : User, sampleSignupDB.users = DB.empty.users ++ [nu] ∧
      nu.email = "eve@x.com" ∧
      sampleSignupResp.role = nu.role ∧
      (nu.role = UserRole.ADMIN ↔ lowerString "ADMIN" = "admin") ∧
      (nu.role = UserRole.USER ↔ lowerString "ADMIN" ≠ "admin") :=
  signup_role_assignment.1 DB.empty ⟨"Eve", "eve@x.com", "Passw0rd1", "ADMIN"⟩
    sampleSignupResp sampleSignupDB rfl

/-- Claim C10: a successful cart-item update sets — it does not
increment — only the targeted item's quantity; its price snapshot, product
reference and cart membership are kept, every other cart item (by id) is
kept verbatim, and every other table of the store is untouched. -/
theorem update_item_sets_quantity_only (db : DB) (uid item_id : Nat)
    (item_data : UpdateItemInCart) :
    ∀ resp db', update_items_in_cart db uid item_id item_data = (.ok resp, db') →
      ∃ ci, ci ∈ db.cart_items ∧ ci.id = item_id ∧
        db'.cart_items = db.cart_items.map
          (fun x => if x.id == ci.id then
            { ci with quantity := item_data.quantity } else x) ∧
        ({ ci with quantity := item_data.quantity } : ShoppingCartItem) ∈ db'.cart_items ∧
        (∀ x ∈ db.cart_items, x.id ≠ ci.id → x ∈ db'.cart_items) ∧
        db'.cart_items.length = db.cart_items.length ∧
        db'.products = db.products ∧ db'.carts = db.carts ∧
        db'.orders = db.orders ∧ db'.order_items = db.order_items ∧
        db'.users = db.users ∧ db'.reset_tokens = db.reset_tokens ∧
        resp = ⟨ci.id, ci.product_id, item_data.quantity, ci.price,
          item_data.quantity * ci.price⟩ := by
  intro resp db' h
  unfold update_items_in_cart at h
  by_cases hq : item_data.quantity ≤ 0
  · rw [if_pos hq] at h; cases h
  · rw [if_neg hq] at h
    cases hfind : db.cart_items.find? (fun ci => ci.id == item_id &&
        db.carts.any (fun c => c.id == ci.cart_id && c.user_id == uid)) with
    | none => rw [hfind] at h; cases h
    | some ci =>
      rw [hfind] at h
      dsimp only at h
      cases hp : findProductIn db.products ci.product_id with
      | none => rw [hp] at h; cases h
      | some product =>
        rw [hp] at h
        dsimp only at h
        by_cases hs : product.stock < item_data.quantity
        · rw [if_pos hs] at h; cases h
        · rw [if_neg hs] at h
          injection h with h1 h2
          injection h1 with h1
          subst h1
          subst h2
          have hmem := List.mem_of_find?_eq_some hfind
          have hid : ci.id = item_id := by
            have hb := List.find?_some hfind
            simp only [Bool.and_eq_true, beq_iff_eq] at hb
            exact hb.1
          refine ⟨ci, hmem, hid, rfl, ?_, ?_, List.length_map _ _,
            rfl, rfl, rfl, rfl, rfl, rfl, rfl⟩
          · have hmm := List.mem_map_of_mem
              (fun y => if y.id == ci.id then
                ({ ci with quantity := item_data.quantity } : ShoppingCartItem)
                else y) hmem
            simpa using hmm
          · intro x hx hne
            have hmm := List.mem_map_of_mem
              (fun y => if y.id == ci.id then
                ({ ci with quantity := item_data.quantity } : ShoppingCartItem)
                else y) hx
            simpa [hne] using hmm

/-- Witness for C10: setting cart item 1 of `sampleDB` to quantity 4
changes exactly that quantity (from 2, not to 6), keeps its snapshot price
9 and product 1, and leaves the second item and all other tables
untouched. -/
theorem update_item_sets_quantity_only_witness :
    ∃ ci, ci ∈ sampleDB.cart_items ∧ ci.id = 1 ∧
      sampleDBUpd.cart_items = sampleDB.cart_items.map
        (fun x => if x.id == ci.id then ({ ci with quantity := 4 } : ShoppingCartItem)
          else x) ∧
      ({ ci with quantity := 4 } : ShoppingCartItem) ∈ sampleDBUpd.cart_items ∧
      (∀ x ∈ sampleDB.cart_items, x.id ≠ ci.id → x ∈ sampleDBUpd.cart_items) ∧
      sampleDBUpd.cart_items.length = sampleDB.cart_items.length ∧
      sampleDBUpd.products = sampleDB.products ∧
      sampleDBUpd.carts = sampleDB.carts ∧
      sampleDBUpd.orders = sampleDB.orders ∧
      sampleDBUpd.order_items = sampleDB.order_items ∧
      sampleDBUpd.users = sampleDB.users ∧
      sampleDBUpd.reset_tokens = sampleDB.reset_tokens ∧
      (⟨1, 1, 4, 9, 36⟩ : CartItemResponse) =
        ⟨ci.id, ci.product_id, 4, ci.price, 4 * ci.price⟩ :=
  update_item_sets_quantity_only sampleDB 7 1 ⟨4⟩ ⟨1, 1, 4, 9, 36⟩ sampleDBUpd rfl

end ECom
